import Mathlib

/-!
Verification of the verticalization engine in `lcpcli/parsers/_parser.py`
(class `Parser`): character-range assignment, dependency-tree
linearization and flushing, FTS-vector emission, label bit-packing,
aligned-entity aggregation, table column layout, and document rows.

Every definition is a shallow embedding of the Python source; doc comments
cite the line numbers of `src/lcpcli/parsers/_parser.py` they translate.
The classes imported from `lcpcli.utils` (`Table`, `LookupTable`,
`NestedSet`, ...) are not part of the sources; where their behaviour is
needed it is modelled from the specification and marked as such.
-/

namespace Lcpcli

/-! ## Character-range tracking (lines 578-583) -/

/-- A token as seen by the character-range logic: the length of its
`form` attribute value and its `spaceAfter` flag. -/
structure Token where
  formLen : Nat
  spaceAfter : Bool
deriving DecidableEq, Repr

/-- Lines 578-583: `left_char_range = self.char_range_cur`, then
`self.char_range_cur += len(form) - (0 if token.spaceAfter else 1)`,
the emitted range is `[left_char_range, char_range_cur)`, and finally
`self.char_range_cur += 1`.  Returns the emitted half-open range and the
new cursor. -/
def advanceToken (cur : Int) (t : Token) : (Int × Int) × Int :=
  let left := cur
  let cur2 := cur + (t.formLen : Int) - (if t.spaceAfter then 0 else 1)
  ((left, cur2), cur2 + 1)

/-- The token loop of lines 496-603 restricted to character-range
bookkeeping: emits one range per token and threads the cursor. -/
def processTokens (cur : Int) : List Token → List (Int × Int) × Int
  | [] => ([], cur)
  | t :: ts =>
    let r := advanceToken cur t
    let rest := processTokens r.2 ts
    (r.1 :: rest.1, rest.2)

/-- Line 619: the segment row's range is
`[char_range_segment_start, char_range_cur - 1)`. -/
def segmentCharRange (startCur endCur : Int) : Int × Int :=
  (startCur, endCur - 1)

/-- The two-token segment of the scenario: `Hello` (5 characters,
`spaceAfter=true`) then `World` (5 characters, `spaceAfter=false`). -/
def helloWorldTokens : List Token := [⟨5, true⟩, ⟨5, false⟩]

/-! ## Dependency-tree linearization (lines 157-214, 538-570, 681-686) -/

/-- One buffered token of a dependency relation: the entry stored at
line 564-569, `deps[token.id] = {"head_id": ..., "nested_set":
NestedSet(token.id, attribute.label, token_table.cursor)}`.  The
`consumed` flag lives on the `NestedSet` object (initially false). -/
structure DepEntry where
  tokenId : String
  headId : String
  label : String
  cursorId : Nat
  consumed : Bool
deriving DecidableEq, Repr

/-- Lines 168-172 of `write_token_deps`: iterating the buffered tokens in
insertion order, `nested_set_of_previous_head` ends up being the LAST
entry whose `head_id` is the empty string (or stays `None` if there is
none). -/
def findRoot (entries : List DepEntry) : Option DepEntry :=
  entries.foldl (fun acc e => if e.headId = "" then some e else acc) none

/-- Modelled from the spec: `NestedSet.all_ids` (the class lives in
`lcpcli.utils`, which is not under `src/`).  The subtree reachable from
the root through the child links built at lines 173-175
(`tokens[hid]["nested_set"].add(tokens[token_id]["nested_set"])`): the
children of a node are the buffered entries whose `head_id` equals the
node's token id, in insertion order.  The visited node is removed from
the pool before recursing so the traversal terminates even on cyclic
head references; token ids are dict keys in the source and hence
distinct. -/
def subtreeIdsAux : Nat → List DepEntry → String → List String
  | 0, _, rootId => [rootId]
  | Nat.succ n, entries, rootId =>
    let rest := entries.filter (fun e => !(e.tokenId == rootId))
    rootId :: (rest.filter (fun e => e.headId == rootId)).flatMap
        (fun c => subtreeIdsAux n rest c.tokenId)

/-- Modelled from the spec: pre-order list of the token ids of the root's
subtree.  A fuel equal to the number of buffered entries bounds the
depth. -/
def subtreeIds (entries : List DepEntry) (rootId : String) : List String :=
  subtreeIdsAux entries.length entries rootId

/-- Modelled from the spec: `NestedSet.compute_anchors`, the classic
nested-set numbering of section 4.3 — each node receives `left` on entry
and `right` after all of its children have been visited.  Returns the
`(tokenId, left, right)` triples of the subtree in pre-order together
with the next counter value. -/
def nestedSetAnchors : Nat → List DepEntry → String → Int →
    List (String × Int × Int) × Int
  | 0, _, rootId, c => ([(rootId, c, c + 1)], c + 2)
  | Nat.succ n, entries, rootId, c =>
    let rest := entries.filter (fun e => !(e.tokenId == rootId))
    let children := rest.filter (fun e => e.headId == rootId)
    let fold := children.foldl
      (fun (acc : List (String × Int × Int) × Int) ch =>
        let r := nestedSetAnchors n rest ch.tokenId acc.2
        (acc.1 ++ r.1, r.2))
      ([], c + 1)
    ((rootId, c, fold.2) :: fold.1, fold.2 + 1)

/-- One row of a dependency-relation table, written at lines 195-203 with
the fixed header `head, dependent, udep, left_anchor, right_anchor`. -/
structure DepRow where
  head : String
  dependent : String
  udep : String
  leftAnchor : Int
  rightAnchor : Int
deriving DecidableEq, Repr

/-- Lines 190-194: the parent row id, empty for the root (whose
`NestedSet` was never linked as a child because its `head_id` is the
empty string, absent from the token-id keys), otherwise the `cursor_id`
of the head's entry. -/
def parentIdOf (entries : List DepEntry) (root e : DepEntry) : String :=
  if e.tokenId = root.tokenId then ""
  else
    match entries.find? (fun p => p.tokenId == e.headId) with
    | some p => toString p.cursorId
    | none => ""

/-- Lines 168-211 of `write_token_deps`, the body processing ONE buffered
segment (the dict value, already stripped of its `Info` key, line 167).
Returns `none` when the segment is skipped: either no entry has an empty
`head_id` — the `assert` at lines 177-181 fails and the bare
`except: continue` at line 182 swallows it — or the found root is already
consumed (line 183).  Otherwise returns the emitted rows, the new
segment buffer (`none` = the segment key is evicted, lines 210-214;
note that individual tokens are popped only from a local copy at lines
207-209, so a partially consumed segment retains ALL its entries, with
the emitted ones marked consumed), and the new `anchor_right`. -/
def processSegmentDeps (anchorRight : Int) (entries : List DepEntry) :
    Option (List DepRow × Option (List DepEntry) × Int) :=
  match findRoot entries with
  | none => none
  | some root =>
    if root.consumed then none
    else
      let ids := subtreeIds entries root.tokenId
      let anchors := (nestedSetAnchors entries.length entries root.tokenId 1).1
      let rows := ids.filterMap (fun id =>
        match entries.find? (fun e => e.tokenId == id) with
        | none => none
        | some e =>
          if e.consumed then none
          else
            match anchors.find? (fun a => a.1 == id) with
            | none => none
            | some a =>
              some ⟨parentIdOf entries root e, toString e.cursorId, e.label,
                    anchorRight + a.2.1, anchorRight + a.2.2⟩)
      let rootRight : Int :=
        match anchors.find? (fun a => a.1 == root.tokenId) with
        | some a => a.2.2
        | none => 0
      let leftover := entries.filter (fun e => !(ids.contains e.tokenId))
      let newEntries := entries.map (fun e =>
        if ids.contains e.tokenId then { e with consumed := true } else e)
      some (rows, if leftover.isEmpty then none else some newEntries,
            anchorRight + rootRight)

/-- A dependency-relation table (created at lines 541-551): its buffered
`deps` dict (segment id, in insertion order, to buffered entries), its
`anchor_right` cursor, its emitted rows, and its row cursor. -/
structure RelTable where
  deps : List (String × List DepEntry)
  anchorRight : Int
  rows : List DepRow
  cursor : Nat
deriving DecidableEq, Repr

/-- Lines 157-214, `write_token_deps`: every buffered segment other than
`working_on` is processed in order, threading `anchor_right`; skipped
segments are kept untouched. -/
def writeTokenDeps (tab : RelTable) (workingOn : String) : RelTable :=
  let step := fun (acc : List (String × List DepEntry) × List DepRow × Int)
                  (seg : String × List DepEntry) =>
    if seg.1 = workingOn then (acc.1 ++ [seg], acc.2.1, acc.2.2)
    else
      match processSegmentDeps acc.2.2 seg.2 with
      | none => (acc.1 ++ [seg], acc.2.1, acc.2.2)
      | some r =>
        match r.2.1 with
        | none => (acc.1, acc.2.1 ++ r.1, r.2.2)
        | some remaining => (acc.1 ++ [(seg.1, remaining)], acc.2.1 ++ r.1, r.2.2)
  let out := tab.deps.foldl step ([], [], tab.anchorRight)
  { tab with deps := out.1, rows := tab.rows ++ out.2.1, anchorRight := out.2.2 }

/-- A buffered segment holding a single entry whose head id is not empty:
no root is discoverable in it. -/
def c7SampleEntries : List DepEntry := [⟨("t1"), ("2"), ("nsubj"), 1, false⟩]

/-- A relation table whose buffer holds only the rootless segment. -/
def c7SampleTab : RelTable := ⟨[(("s1"), c7SampleEntries)], 0, [], 1⟩

/-! ## Pipeline fragment: dependency flag, buffering, FTS vectors
(lines 438-439, 441, 458-459, 538-570, 650-679, 681-686) -/

/-- A token of the pipeline model: its id, the value of its `form`
attribute, and its optional Dependency attribute as a
`(value, label)` pair — line 557 reads the head reference off the
attribute's `value`, line 567 its `label`. -/
structure DepTok where
  id : String
  form : String
  dep : Option (String × String)
deriving DecidableEq, Repr

/-- A segment as consumed by the pipeline loop. -/
structure Seg where
  id : String
  toks : List DepTok
deriving DecidableEq, Repr

/-- The pipeline state relevant to claims C2 and C3:
`token_have_dependencies` (line 439), the frozen `non_null_attributes`
of the model's two attribute names — the `form` Text attribute and the
dependency attribute (lines 462-488 freeze them on the first non-empty
segment) — one dependency-relation table, the token-table row cursor,
and the emitted `fts_vector` rows. -/
structure PipeState where
  tokenHaveDependencies : Bool
  nonNullForm : Bool
  nonNullDep : Bool
  rel : RelTable
  tokenCursor : Nat
  ftsRows : List String
deriving DecidableEq, Repr

/-- Line 673: single quotes in attribute values are doubled
(`re.sub` of a quote by two quotes). -/
def escapeQuotes (s : String) : String :=
  String.mk (s.data.flatMap (fun c => if c = Char.ofNat 39 then [c, c] else [c]))

/-- Lines 462-488: the attribute freeze, run only while no attribute has
been frozen yet and the token-table cursor is still 1 (i.e. on the first
non-empty segment): every attribute carrying a truthy value on at least
one token of the segment is recorded into `non_null_attributes`.
Line 469 (`if not attr_value.value: continue`) skips an attribute whose
value is empty — a Dependency attribute's value is the head reference
(line 557), so the dependency attribute is frozen only if some token of
the FIRST segment has a NON-EMPTY head (a non-root token). -/
def freezeNonNull (st : PipeState) (toks : List DepTok) : PipeState :=
  if (!st.nonNullForm && !st.nonNullDep) && (st.tokenCursor == 1) then
    let fz := toks.foldl
      (fun (acc : Bool × Bool) tok =>
        let accForm := if tok.form = ("") then acc.1 else true
        let accDep :=
          match tok.dep with
          | some d => if d.1 = ("") then acc.2 else true
          | none => acc.2
        (accForm, accDep))
      (st.nonNullForm, st.nonNullDep)
    { st with nonNullForm := fz.1, nonNullDep := fz.2 }
  else st

/-- Lines 659-671: the lexeme values ONE token contributes to the FTS
vector, iterating only the FROZEN attributes (`for an in
non_null_attributes`).  Line 661 (`a = token.attributes[an]`) indexes
the token's attribute dict directly, so a token lacking the frozen
dependency attribute raises an uncaught KeyError, modelled as
`Except.error` (the model's `form` attribute is always a key of the
dict); a Dependency attribute contributes its value twice (the comment
at lines 667-669 reads `same value for LABEL_IN and LABELS_OUT`). -/
def ftsTokenVals (frozenForm frozenDep : Bool) (tok : DepTok) :
    Except String (List String) :=
  let formVals := if frozenForm then [tok.form] else []
  if frozenDep then
    match tok.dep with
    | none => Except.error ("KeyError: dependency attribute")
    | some d => Except.ok (formVals ++ [d.1, d.1])
  else Except.ok formVals

/-- Lines 657-675: the per-segment FTS vector.  For each token (1-based
position `n`), each contributed lexeme is rendered as a quote, its
1-based attribute rank, the escaped value, a quote, a colon and the
token position; the KeyError of line 661 propagates. -/
def ftsVector (frozenForm frozenDep : Bool) (toks : List DepTok) :
    Except String String :=
  let parts := (List.enumFrom 1 toks).foldl
    (fun (acc : Except String (List String)) p =>
      match acc with
      | Except.error e => Except.error e
      | Except.ok l =>
        match ftsTokenVals frozenForm frozenDep p.2 with
        | Except.error e => Except.error e
        | Except.ok vals =>
          Except.ok (l ++ (List.enumFrom 1 vals).map (fun q =>
            String.mk [Char.ofNat 39] ++ toString q.1 ++ escapeQuotes q.2 ++
              String.mk [Char.ofNat 39, Char.ofNat 58] ++ toString p.1)))
    (Except.ok [])
  match parts with
  | Except.error e => Except.error e
  | Except.ok l => Except.ok (String.intercalate (" ") l)

/-- Dict update `deps[token.id] = {...}` (lines 564-569) on the named
segment; token ids are fresh dict keys within a segment, so the entry is
appended to that segment's buffer. -/
def updateSegEntries (deps : List (String × List DepEntry)) (segId : String)
    (e : DepEntry) : List (String × List DepEntry) :=
  deps.map (fun s => if s.1 = segId then (s.1, s.2 ++ [e]) else s)

/-- Lines 538-570: processing one token's Dependency attribute — invoked
only when the attribute is frozen, see `pipeTokenStep`.  The statement
`token_have_dependencies = True` at line 539 is commented out in the
source, so the flag is left untouched.  The segment's dict is created
holding an `Info` key (lines 553-555), so the truthiness test `deps` at
line 559 always passes and a root token (empty head value)
unconditionally triggers `write_token_deps` with the current segment as
`working_on`; the new entry then carries the token-table cursor as its
row id (line 567) and the relation-table cursor is incremented
(line 570). -/
def depBranch (segId : String) (st : PipeState) (tok : DepTok) : PipeState :=
  match tok.dep with
  | none => st
  | some d =>
    let rel0 := st.rel
    let rel1 :=
      if (rel0.deps.find? (fun s => s.1 == segId)).isSome then rel0
      else { rel0 with deps := rel0.deps ++ [(segId, [])] }
    let rel2 := if d.1 = ("") then writeTokenDeps rel1 segId else rel1
    let entry : DepEntry := ⟨tok.id, d.1, d.2, st.tokenCursor, false⟩
    let rel3a := { rel2 with deps := updateSegEntries rel2.deps segId entry }
    let rel3 := { rel3a with cursor := rel3a.cursor + 1 }
    { st with rel := rel3 }

/-- One token-loop iteration (lines 496-603): the attribute loop of
line 498 iterates only the FROZEN `non_null_attributes`, so the
Dependency branch runs only when the dependency attribute was frozen
from the first segment — a frozen-but-absent attribute merely appends an
empty column (lines 502-504, `token.attributes.get(attr_name, None)`),
and an unfrozen attribute is never dispatched at all; the `form` Text
branch only touches its lookup table.  Then the token-table cursor
advances (line 603). -/
def pipeTokenStep (segId : String) (st : PipeState) (tok : DepTok) : PipeState :=
  let st1 := if st.nonNullDep then depBranch segId st tok else st
  { st1 with tokenCursor := st1.tokenCursor + 1 }

/-- One segment iteration: the attribute freeze (lines 462-488), the
token loop, then the FTS block of lines 650-679.  The guard
`if not token_have_dependencies` (line 652) reads a flag that is never
set; the comment at line 651 reads `Always run for now`.  A KeyError
raised at line 661 aborts the run. -/
def pipeSegStep (st : PipeState) (seg : Seg) : Except String PipeState :=
  let st0 := freezeNonNull st seg.toks
  let st1 := seg.toks.foldl (pipeTokenStep seg.id) st0
  if st1.tokenHaveDependencies then Except.ok st1
  else
    match ftsVector st1.nonNullForm st1.nonNullDep seg.toks with
    | Except.error e => Except.error e
    | Except.ok v => Except.ok { st1 with ftsRows := st1.ftsRows ++ [v] }

/-- The generator loop of lines 441-679; `if not segment: continue`
(lines 458-459) skips empty yields; an uncaught exception aborts the
run. -/
def pipeLoop (st : PipeState) : List (Option Seg) → Except String PipeState
  | [] => Except.ok st
  | os :: rest =>
    match os with
    | none => pipeLoop st rest
    | some seg =>
      match pipeSegStep st seg with
      | Except.error e => Except.error e
      | Except.ok st1 => pipeLoop st1 rest

/-- The initial pipeline state: `token_have_dependencies = False`
(line 439), no attribute frozen yet, an empty relation table, token
cursor 1 (table cursors are 1-based). -/
def initPipeState : PipeState := ⟨false, false, false, ⟨[], 0, [], 1⟩, 1, []⟩

/-- Lines 681-686: after the stream is exhausted, buffered dependencies
are flushed — but only when `token_have_dependencies` is set. -/
def finalDepFlush (st : PipeState) : PipeState :=
  if st.tokenHaveDependencies then
    { st with rel :=
        if st.rel.deps.isEmpty then st.rel else writeTokenDeps st.rel ("") }
  else st

/-- The pipeline for the dependency/FTS fragment: the loop, then — on a
completed run — the end-of-stream block. -/
def runPipeline (stream : List (Option Seg)) : Except String PipeState :=
  match pipeLoop initPipeState stream with
  | Except.error e => Except.error e
  | Except.ok st => Except.ok (finalDepFlush st)

/-- Whether the run completed without an uncaught exception. -/
def runOk (r : Except String PipeState) : Bool :=
  match r with
  | Except.ok _ => true
  | Except.error _ => false

/-- The final state of a completed run (the initial state for an aborted
one). -/
def runState (r : Except String PipeState) : PipeState :=
  match r with
  | Except.ok st => st
  | Except.error _ => initPipeState

/-- A one-segment stream holding one complete two-token dependency tree:
the root `1` (empty head value) and its dependent `2` (head `1`).  The
dependent's truthy head value freezes the dependency attribute on the
first segment (line 469 skips only empty values), so both entries are
buffered; the tree is still unclosed when the stream ends. -/
def c2Stream : List (Option Seg) :=
  [some ⟨("s1"),
    [⟨("1"), ("Hello"), some ((""), ("root"))⟩,
     ⟨("2"), ("World"), some (("1"), ("nsubj"))⟩]⟩]

/-- Two segments, each one complete two-token tree: the dependency
attribute is frozen on the first segment, the second segment's root
triggers the flush of the first (contributing relation rows), and every
token carries both frozen attributes, so no KeyError occurs and the run
completes. -/
def c3Stream : List (Option Seg) :=
  [some ⟨("s1"),
    [⟨("1"), ("walks"), some ((""), ("root"))⟩,
     ⟨("2"), ("dog"), some (("1"), ("nsubj"))⟩]⟩,
   some ⟨("s2"),
    [⟨("3"), ("runs"), some ((""), ("root"))⟩,
     ⟨("4"), ("cat"), some (("3"), ("nsubj"))⟩]⟩]

/-! ## Label bit-packing (lines 269-281) and padding (lines 360-402) -/

/-- Python `str.strip()` as used at line 276. -/
def pyStrip (s : String) : String :=
  String.mk
    (((s.data.dropWhile Char.isWhitespace).reverse.dropWhile Char.isWhitespace).reverse)

/-- Helper for Python `str.split(",")`. -/
def splitCommaAux : List Char → List Char → List String
  | [], acc => [String.mk acc.reverse]
  | c :: cs, acc =>
    if c = Char.ofNat 44 then String.mk acc.reverse :: splitCommaAux cs []
    else splitCommaAux cs (c :: acc)

/-- Python `str.split(",")` on a comma-separated labels column
(line 275). -/
def splitLabels (s : String) : List String := splitCommaAux s.data []

/-- Lines 277-278: `idx = lbls.get(l, len(lbls)); lbls[l] = idx` — a
label already in the vocabulary keeps its index, a new label is assigned
the next 0-based index. -/
def labelIdx (lbls : List (String × Nat)) (l : String) :
    List (String × Nat) × Nat :=
  match lbls.lookup l with
  | some i => (lbls, i)
  | none => (lbls ++ [(l, lbls.length)], lbls.length)

/-- Line 279: `bs = "1" + "".join(["0" for _ in range(idx - 1)])` — the
bit VALUE contributed by a label of index `idx` is `2 ^ (idx - 1)` with
truncated subtraction, because `range(idx - 1)` is empty for idx 0 as
well as idx 1: the labels of indices 0 and 1 both contribute the lowest
bit. -/
def labelBitValue (idx : Nat) : Nat := 2 ^ (idx - 1)

/-- Lines 274-281: fold over one row's comma-separated labels column,
or-ing each label's contributed bit into the row's bitset (the column is
then replaced by `bin(bits)[2:]`). -/
def encodeLabelSet (lbls : List (String × Nat)) (s : String) :
    List (String × Nat) × Nat :=
  (splitLabels s).foldl
    (fun acc label =>
      let r := labelIdx acc.1 (pyStrip label)
      (r.1, acc.2 ||| labelBitValue r.2))
    (lbls, 0)

/-- The length of `bin(n)[2:]`: the number of binary digits of `n`
(one digit for zero). -/
def binLength (n : Nat) : Nat := (Nat.toDigits 2 n).length

/-- Lines 393-400 of `close_upload_files`: a data row's bitstring is
left-padded with zeros up to the vocabulary size `nlabels` when it is
shorter; its final length is the max of its bare length and
`nlabels`. -/
def paddedBitLength (nlabels n : Nat) : Nat := max (binLength n) nlabels

/-! ## Token-table column layout (header lines 462-488, rows 496-603) -/

/-- The variant of a token attribute (the `isinstance` dispatch of the
source). -/
inductive AttrKind
  | categorical
  | text
  | meta
  | dependency
deriving DecidableEq, BEq, Repr

/-- A frozen token attribute slot: its variant and whether its
lower-cased name is listed in `aligned_entities`. -/
structure AttrSpec where
  kind : AttrKind
  aligned : Bool
deriving DecidableEq, Repr

/-- Lines 462-488: the header column count, frozen on the first
non-empty segment — the id column, one column per non-null attribute
that is neither a Dependency nor an aligned-entity reference (Text and
Meta get an `_id` suffix but still one column), `char_range`,
`frame_range` only when some token of the FIRST segment carries a frame
range, and the segment id column. -/
def headerColCount (specs : List AttrSpec) (hasFrameFirst : Bool) : Nat :=
  1 + (specs.countP fun s => !(s.kind == AttrKind.dependency) && !s.aligned)
    + 1 + (if hasFrameFirst then 1 else 0) + 1

/-- Lines 496-570: the number of columns one attribute slot contributes
to a data row.  An attribute ABSENT on this token appends one empty
column (lines 502-504) even when its header contribution was zero; an
aligned Text reference appends nothing (lines 507-508); Categorical,
Text and Meta append one column (lines 511-535); a Dependency appends
nothing (lines 538-570). -/
def attrRowColCount (s : AttrSpec) (present : Bool) : Nat :=
  if !present then 1
  else if s.aligned && (s.kind == AttrKind.text) then 0
  else if s.kind == AttrKind.categorical then 1
  else if (s.kind == AttrKind.text) || (s.kind == AttrKind.meta) then 1
  else 0

/-- Lines 496-603: a data row's column count — the id, the attribute
slots, `char_range`, `frame_range` whenever THIS token carries a frame
range (lines 584-591, regardless of the frozen header), and the segment
id. -/
def rowColCount (specs : List AttrSpec) (present : List Bool)
    (tokHasFrame : Bool) : Nat :=
  1 + ((specs.zip present).map (fun p => attrRowColCount p.1 p.2)).sum
    + 1 + (if tokHasFrame then 1 else 0) + 1

/-! ## Document rows (lines 110-124, 436, 441-459, 694-704) -/

/-- One yield of `parse_generator`: an optional segment (its tokens) and
an optional document, identified by the identity of the yielded
object (`current_document is not doc`). -/
structure StreamItem where
  segment : Option (List Token)
  doc : Option Nat
deriving DecidableEq, Repr

/-- The loop state for document bookkeeping: the character cursor, the
currently tracked document (identity and `char_range_start`), and the
document rows written so far (as character ranges). -/
structure DocState where
  cur : Int
  currentDoc : Option (Nat × Int)
  docRows : List (Int × Int)
deriving DecidableEq, Repr

/-- Lines 443-459 with `upload_new_doc` (lines 110-124): at the top of
the loop the segment start is the cursor; when a different document is
yielded, the previous one (if any) is written with range
`[char_range_start, char_range_cur - 1)` and the new one records the
segment start as its own range start; then an empty segment is skipped
and a non-empty one advances the cursor through its tokens. -/
def docStep (st : DocState) (item : StreamItem) : DocState :=
  let segStart := st.cur
  let st1 :=
    match item.doc with
    | none => st
    | some d =>
      match st.currentDoc with
      | some cd =>
        if cd.1 = d then st
        else
          let stw := { st with docRows := st.docRows ++ [(cd.2, st.cur - 1)] }
          { stw with currentDoc := some (d, segStart) }
      | none => { st with currentDoc := some (d, segStart) }
  match item.segment with
  | none => st1
  | some toks => { st1 with cur := (processTokens st1.cur toks).2 }

/-- The generator loop, document fragment: the initial cursor is
`char_range_start` captured at line 436, `current_document` starts as
`None` (line 440). -/
def runDocLoop (initCur : Int) (stream : List StreamItem) : DocState :=
  stream.foldl docStep ⟨initCur, none, []⟩

/-- Lines 694-704: at end-of-stream, when no document was ever yielded an
all-encompassing fallback `Document()` is created with
`char_range_start` equal to the initial cursor; in either case the last
document is written with range `[char_range_start, char_range_cur - 1)`. -/
def finalDocRows (initCur : Int) (stream : List StreamItem) : List (Int × Int) :=
  let st := runDocLoop initCur stream
  match st.currentDoc with
  | none => st.docRows ++ [(initCur, st.cur - 1)]
  | some cd => st.docRows ++ [(cd.2, st.cur - 1)]

/-- A document-less two-segment stream for the C9 witness. -/
def c9SampleStream : List StreamItem :=
  [⟨some [⟨5, true⟩], none⟩, ⟨some [⟨3, false⟩], none⟩]

/-! ## Span aggregation: aligned entities
(lines 216-350, 502-508, 572-583, 689-692) -/

/-- The `current_entity` dict of an aligned-entity table: `{}` before any
entity is open or after an explicit reset; `{"id": fk}` alone when the
foreign key was NOT found in the first column of the reference file (the
read loop of lines 308-340 ends on `if not line: break` without setting
`cols` or `range_low`); the full record otherwise.  With frame tracking
enabled, `frame_range_start` is recorded in both opened forms
(lines 341-342). -/
inductive CEState
  | empty
  | openedFound (id : String) (cols : List String) (rangeLow : Int)
      (frameStart : Option Int)
  | openedMissing (id : String) (frameStart : Option Int)
deriving DecidableEq, Repr

/-- `ce.get("id", "")` (line 262). -/
def ceId : CEState → String
  | CEState.empty => ("")
  | CEState.openedFound i _ _ _ => i
  | CEState.openedMissing i _ => i

/-- One written aligned-entity row (lines 285-301): cursor id, resolved
columns, character range, optional frame range. -/
structure ARow where
  cursor : Nat
  cols : List String
  range : Int × Int
  frameRange : Option (Int × Int)
deriving DecidableEq, Repr

/-- The state of one aligned-entity table: the current entity, the
shared label vocabulary (`table.labels`), the per-text-column lookup
tables, the recorded categorical values, the written rows and the row
cursor (1-based). -/
structure ATState where
  current : CEState
  labels : List (String × Nat)
  lookups : List (String × List (String × Nat))
  categoricalValues : List (String × List String)
  rows : List ARow
  cursor : Nat
deriving DecidableEq, Repr

/-- Modelled from the spec: `LookupTable.get_id` (`lcpcli.utils` is not
under `src/`), section 4.2 — return the cached id when the string was
interned before, else append it and assign ids in first-seen order
starting at 1. -/
def lookupGetId (lt : List (String × Nat)) (s : String) :
    List (String × Nat) × Nat :=
  match lt.lookup s with
  | some i => (lt, i)
  | none => (lt ++ [(s, lt.length + 1)], lt.length + 1)

/-- Replace (or create) the lookup table registered for a column. -/
def updateLookups (ls : List (String × List (String × Nat))) (k : String)
    (v : List (String × Nat)) : List (String × List (String × Nat)) :=
  if (ls.find? (fun p => p.1 == k)).isSome then
    ls.map (fun p => if p.1 == k then (p.1, v) else p)
  else ls ++ [(k, v)]

/-- Lines 335-338: record an observed categorical value into the table's
per-attribute value set. -/
def addCategoricalValue (cv : List (String × List String)) (k v : String) :
    List (String × List String) :=
  match cv.find? (fun p => p.1 == k) with
  | none => cv ++ [(k, [v])]
  | some _ => cv.map (fun p =>
      if p.1 == k then (p.1, if p.2.contains v then p.2 else p.2 ++ [v]) else p)

/-- Lines 264-301 of `aligned_entity`: closing the current entity when a
differing key arrives.  An empty `current_entity` writes nothing; an
entity opened from a key missing from the reference file makes line 267
(`entity_cols = ce["cols"]`) raise an uncaught `KeyError`, modelled as
`Except.error`; a fully opened entity has its labels-typed columns
bit-packed against the shared vocabulary (lines 269-281), its range
upper bound set to the cursor minus one and widened when degenerate
(lines 282-284), and its row appended (lines 285-301). -/
def closeCurrent (layerAttrs : List (String × String)) (colNames : List String)
    (hasFrame : Bool) (charCur frameCur : Int) (st : ATState) :
    Except String ATState :=
  match st.current with
  | CEState.empty => Except.ok st
  | CEState.openedMissing _ _ => Except.error ("KeyError: cols")
  | CEState.openedFound _ cols rangeLow frameStart =>
    let processed := (colNames.zip cols).foldl
      (fun (acc : List (String × Nat) × List String) p =>
        if ((layerAttrs.lookup p.1).getD ("")) == ("labels") then
          let r := encodeLabelSet acc.1 p.2
          (r.1, acc.2 ++ [String.mk (Nat.toDigits 2 r.2)])
        else (acc.1, acc.2 ++ [p.2]))
      (st.labels, [])
    let rangeUp0 := charCur - 1
    let rangeUp := if rangeUp0 ≤ rangeLow then rangeLow + 1 else rangeUp0
    let frameRange :=
      if hasFrame then
        let lo := frameStart.getD 0
        some (lo, if frameCur ≤ lo then lo + 1 else frameCur)
      else none
    let row : ARow := ⟨st.cursor, processed.2, (rangeLow, rangeUp), frameRange⟩
    let st1 := { st with labels := processed.1 }
    let st2 := { st1 with rows := st1.rows ++ [row] }
    Except.ok { st2 with cursor := st2.cursor + 1 }

/-- Lines 302-343 of `aligned_entity`: opening the next entity.  An empty
or placeholder `_` key opens the empty entity; otherwise the reference
file is scanned for the first line whose first column equals the key —
when found, each column is resolved (text columns through the column's
lookup table, categorical values recorded, others kept stripped;
the attribute type is looked up by the reference-file column name, which
lines 318-326 reconcile with the layer attribute names) and the current
cursor becomes `range_low`; when NOT found the entity holds only its
id. -/
def openNew (layerAttrs : List (String × String)) (colNames : List String)
    (refFile : List (String × List String)) (hasFrame : Bool)
    (charCur frameCur : Int) (st : ATState) (fk : String) : ATState :=
  if fk = ("") ∨ fk = ("_") then { st with current := CEState.empty }
  else
    match refFile.find? (fun line => line.1 == fk) with
    | none =>
      let fs := if hasFrame then some frameCur else none
      { st with current := CEState.openedMissing fk fs }
    | some line =>
      let resolved := (colNames.zip line.2).foldl
        (fun (acc :
            (List (String × List (String × Nat)) × List (String × List String))
              × List String) p =>
          let ctype := (layerAttrs.lookup p.1).getD ("")
          if ctype == ("text") then
            let lt := (((acc.1.1.find? (fun q => q.1 == p.1)).map Prod.snd)).getD []
            let r := lookupGetId lt (pyStrip p.2)
            ((updateLookups acc.1.1 p.1 r.1, acc.1.2), acc.2 ++ [toString r.2])
          else
            let cv := if ctype == ("categorical")
              then addCategoricalValue acc.1.2 p.1 (pyStrip p.2)
              else acc.1.2
            ((acc.1.1, cv), acc.2 ++ [pyStrip p.2]))
        ((st.lookups, st.categoricalValues), [])
      let st1 := { st with lookups := resolved.1.1 }
      let st2 := { st1 with categoricalValues := resolved.1.2 }
      let fs := if hasFrame then some frameCur else none
      { st2 with current := CEState.openedFound fk resolved.2 charCur fs }

/-- Lines 258-343 of `aligned_entity` once the table exists: `fk` is the
stripped attribute value (line 259).  Same key as the open entity: defer
(the `previous_entity` bookkeeping at line 263 has no effect on emitted
rows).  Differing key: close the current entity, then open the new
one. -/
def alignedEntityStep (layerAttrs : List (String × String))
    (colNames : List String) (refFile : List (String × List String))
    (hasFrame : Bool) (charCur frameCur : Int) (st : ATState) (fk : String) :
    Except String ATState :=
  if fk = ceId st.current then Except.ok st
  else
    match closeCurrent layerAttrs colNames hasFrame charCur frameCur st with
    | Except.error e => Except.error e
    | Except.ok st1 =>
      Except.ok (openNew layerAttrs colNames refFile hasFrame charCur frameCur st1 fk)

/-- Lines 345-350, `close_aligned_entity`: call `aligned_entity` with a
dummy Text attribute of value `dummy`, then reset `current_entity` to
the empty dict. -/
def closeAlignedEntity (layerAttrs : List (String × String))
    (colNames : List String) (refFile : List (String × List String))
    (hasFrame : Bool) (charCur frameCur : Int) (st : ATState) :
    Except String ATState :=
  match alignedEntityStep layerAttrs colNames refFile hasFrame charCur frameCur
      st ("dummy") with
  | Except.error e => Except.error e
  | Except.ok st1 => Except.ok { st1 with current := CEState.empty }

/-- A token for the aligned-entity run: the optional (stripped) foreign
key carried by its aligned-entity attribute, and its form length and
`spaceAfter` flag for the cursor advance. -/
structure AlignTok where
  fk : Option String
  formLen : Nat
  spaceAfter : Bool
deriving DecidableEq, Repr

/-- The token loop of lines 496-603 restricted to one token-level aligned
entity type listed among the frozen `non_null_attributes`: when the
attribute is present, `aligned_entity` is called (lines 507-508); when
absent, only an empty column is appended (lines 502-504) and NO close
happens — the per-token close loop of lines 572-576 skips every entity
type listed in `non_null_attributes`; then the character cursor advances
(lines 578-583). -/
def runAlignedSegment (layerAttrs : List (String × String))
    (colNames : List String) (refFile : List (String × List String))
    (st : ATState) (charCur : Int) :
    List AlignTok → Except String (ATState × Int)
  | [] => Except.ok (st, charCur)
  | tok :: rest =>
    let next :=
      match tok.fk with
      | some fk =>
        alignedEntityStep layerAttrs colNames refFile false charCur 0 st fk
      | none => Except.ok st
    match next with
    | Except.error e => Except.error e
    | Except.ok st1 =>
      runAlignedSegment layerAttrs colNames refFile st1
        (advanceToken charCur ⟨tok.formLen, tok.spaceAfter⟩).2 rest

/-- The initial aligned-entity table state: empty current entity, no
vocabulary, row cursor 1. -/
def initATState : ATState := ⟨CEState.empty, [], [], [], [], 1⟩

/-- The C6 reference file: keys `E1` and `E2` with one untyped column
each. -/
def c6RefFile : List (String × List String) := [(("E1"), [("x")]), (("E2"), [("y")])]

/-- The C6 layer attributes: the single reference-file column, untyped. -/
def c6LayerAttrs : List (String × String) := [(("col1"), (""))]

/-- The C6 column names as read from the reference-file header. -/
def c6ColNames : List String := [("col1")]

/-- The C6 scenario's five tokens (each of form length 5 with a trailing
space): tokens 1-3 reference `E1`, token 4 carries no attribute for the
entity type, token 5 references `E2`. -/
def c6Toks : List AlignTok :=
  [⟨some ("E1"), 5, true⟩, ⟨some ("E1"), 5, true⟩, ⟨some ("E1"), 5, true⟩,
   ⟨none, 5, true⟩, ⟨some ("E2"), 5, true⟩]

/-- The C6 scenario run: the five tokens starting at cursor 1, then the
end-of-stream close of lines 689-690. -/
def c6Run : Except String (ATState × Int) :=
  match runAlignedSegment c6LayerAttrs c6ColNames c6RefFile initATState 1 c6Toks with
  | Except.error e => Except.error e
  | Except.ok p =>
    match closeAlignedEntity c6LayerAttrs c6ColNames c6RefFile false p.2 0 p.1 with
    | Except.error e => Except.error e
    | Except.ok st => Except.ok (st, p.2)

/-- The aligned-entity rows emitted by the C6 scenario. -/
def c6Rows : List ARow :=
  match c6Run with
  | Except.ok p => p.1.rows
  | Except.error _ => []

/-- The C10 witness reference file: only key `E1` occurs. -/
def c10RefFile : List (String × List String) := [(("E1"), [("x")])]

/-- The C10 witness layer attributes. -/
def c10LayerAttrs : List (String × String) := [(("col1"), (""))]

/-- The C10 witness column names. -/
def c10ColNames : List String := [("col1")]

end Lcpcli

namespace Lcpcli

/-- Claim C1, counterexample: the claim states that the scenario yields
token ranges `[1,6)` and `[7,12)` and segment range `[1,12)`.  On the
code, the `spaceAfter=false` token advances the cursor by
`len(form) - 1` before the range is emitted (line 579-581), so the
second token's range is `[7,11)` and the segment range is `[1,11)`: the
claimed values are refuted at this concrete input. -/
theorem c1_counterexample :
    ¬ ((processTokens 1 helloWorldTokens).1 = [(1, 6), (7, 12)] ∧
       segmentCharRange 1 (processTokens 1 helloWorldTokens).2 = (1, 12)) := by
  decide

/-- Claim C1, amended: for the two-token segment `Hello World` with
`spaceAfter=true` then `spaceAfter=false`, processed with the character
cursor starting at 1, the emitted token ranges are `[1,6)` and `[7,11)`
and the emitted segment range is `[1,11)` (the final cursor being 12). -/
theorem c1_amended :
    (processTokens 1 helloWorldTokens).1 = [(1, 6), (7, 11)] ∧
    (processTokens 1 helloWorldTokens).2 = 12 ∧
    segmentCharRange 1 (processTokens 1 helloWorldTokens).2 = (1, 11) := by
  decide

/-- Claim C5, counterexample: a token whose form has length 1 and whose
`spaceAfter` flag is false receives the empty range `[1,1)` when
processed at cursor 1; the emitted range is degenerate and is NOT
widened by one unit (the widening at lines 589-590 and 283-284 applies
to frame ranges and aligned-entity ranges, not to token character
ranges), refuting the claim that every token range is non-empty. -/
theorem c5_counterexample :
    (processTokens 1 [⟨1, false⟩]).1 = [(1, 1)] ∧
    ¬ (∀ r ∈ (processTokens 1 [⟨1, false⟩]).1, r.1 < r.2) := by
  decide

/-- Helper: with a non-empty form the range's upper bound is at least its
lower bound. -/
theorem advanceToken_lo_le_hi (cur : Int) (t : Token) (ht : 1 ≤ t.formLen) :
    cur ≤ (advanceToken cur t).1.2 := by
  unfold advanceToken
  cases hs : t.spaceAfter
  · simp only [hs, Bool.false_eq_true, if_neg, ite_false]
    omega
  · simp only [hs, ite_true]
    omega

/-- Helper: the next cursor is the range's upper bound plus one. -/
theorem advanceToken_next (cur : Int) (t : Token) :
    (advanceToken cur t).2 = (advanceToken cur t).1.2 + 1 := rfl

/-- Helper: the emitted range's lower bound is the incoming cursor. -/
theorem advanceToken_lo (cur : Int) (t : Token) :
    (advanceToken cur t).1.1 = cur := rfl

/-- Claim C5, amended: for every token whose form is non-empty, the
emitted character ranges in a segment are half-open with non-negative
width, consecutive ranges satisfy `next.low = prev.high + 1` (hence they
never overlap) and their lower bounds strictly increase.  A degenerate
range (form of length 1 with `spaceAfter=false`) is emitted as-is, empty,
and is not widened. -/
theorem c5_amended (cur : Int) (ts : List Token)
    (h : ∀ t ∈ ts, 1 ≤ t.formLen) :
    List.Chain' (fun r1 r2 : Int × Int => r1.2 + 1 = r2.1 ∧ r1.1 < r2.1)
      (processTokens cur ts).1 ∧
    ∀ r ∈ (processTokens cur ts).1, r.1 ≤ r.2 := by
  induction ts generalizing cur with
  | nil => exact ⟨List.chain'_nil, by simp [processTokens]⟩
  | cons t ts ih =>
    have ht : 1 ≤ t.formLen := h t (List.mem_cons_self t ts)
    have hts : ∀ x ∈ ts, 1 ≤ x.formLen := fun x hx => h x (List.mem_cons_of_mem t hx)
    have hlohi : cur ≤ (advanceToken cur t).1.2 := advanceToken_lo_le_hi cur t ht
    obtain ⟨ihchain, ihmem⟩ := ih (advanceToken cur t).2 hts
    have hexp : (processTokens cur (t :: ts)).1 =
        (cur, (advanceToken cur t).1.2) :: (processTokens (advanceToken cur t).2 ts).1 := rfl
    constructor
    · rw [hexp]
      rcases hnil : (processTokens (advanceToken cur t).2 ts).1 with _ | ⟨r2, rest⟩
      · exact List.chain'_singleton _
      · have hr2 : r2.1 = (advanceToken cur t).2 := by
          cases ts with
          | nil => simp [processTokens] at hnil
          | cons t2 ts2 =>
            have : (processTokens (advanceToken cur t).2 (t2 :: ts2)).1 =
                ((advanceToken cur t).2, (advanceToken (advanceToken cur t).2 t2).1.2) ::
                  (processTokens (advanceToken (advanceToken cur t).2 t2).2 ts2).1 := rfl
            rw [this] at hnil
            have := (List.cons.injEq _ _ _ _).mp hnil
            rw [← this.1]
        rw [List.chain'_cons]
        refine ⟨⟨?_, ?_⟩, ?_⟩
        · rw [hr2, advanceToken_next]
        · rw [hr2, advanceToken_next]
          omega
        · rw [← hnil]
          exact ihchain
    · rw [hexp]
      intro r hr
      rcases List.mem_cons.mp hr with h1 | h2
      · rw [h1]
        exact hlohi
      · exact ihmem r h2

/-- Claim C5, amended, witness: the general theorem applied to the
concrete two-token segment of the scenario. -/
theorem c5_amended_witness :
    (∀ t ∈ helloWorldTokens, 1 ≤ t.formLen) ∧
    (List.Chain' (fun r1 r2 : Int × Int => r1.2 + 1 = r2.1 ∧ r1.1 < r2.1)
        (processTokens 1 helloWorldTokens).1 ∧
      ∀ r ∈ (processTokens 1 helloWorldTokens).1, r.1 ≤ r.2) :=
  ⟨by decide, c5_amended 1 helloWorldTokens (by decide)⟩

/-- Helper: when no buffered entry has an empty head id, the scan of
lines 168-172 leaves `nested_set_of_previous_head` unset. -/
theorem findRoot_eq_none (entries : List DepEntry)
    (h : ∀ e ∈ entries, e.headId ≠ ("")) : findRoot entries = none := by
  induction entries with
  | nil => rfl
  | cons e l ih =>
    have he : e.headId ≠ ("") := h e (List.mem_cons_self e l)
    have hl : ∀ x ∈ l, x.headId ≠ ("") := fun x hx => h x (List.mem_cons_of_mem e hx)
    unfold findRoot
    rw [List.foldl_cons, if_neg he]
    exact ih hl

/-- Claim C7: when `write_token_deps` processes a buffered dependency
segment in which no entry has an empty head id (no root), the segment is
silently skipped: no rows are emitted for it, its buffered entries are
retained unchanged, and the table state is otherwise untouched — the
failing `assert` at lines 177-181 is swallowed by the bare
`except: continue` at line 182, so no exception reaches the caller
(the embedding is a total function: the caught-assert path is the `none`
branch of `processSegmentDeps`). -/
theorem c7_no_root_skips (segId workingOn : String) (entries : List DepEntry)
    (tab : RelTable)
    (hdeps : tab.deps = [(segId, entries)])
    (hroot : ∀ e ∈ entries, e.headId ≠ ("")) :
    (writeTokenDeps tab workingOn).deps = tab.deps ∧
    (writeTokenDeps tab workingOn).rows = tab.rows ∧
    (writeTokenDeps tab workingOn).anchorRight = tab.anchorRight := by
  have hnone : processSegmentDeps tab.anchorRight entries = none := by
    unfold processSegmentDeps
    rw [findRoot_eq_none entries hroot]
  unfold writeTokenDeps
  rw [hdeps]
  by_cases hw : segId = workingOn
  · simp [hw]
  · simp [hw, hnone]

/-- Claim C7, witness: the skip theorem applied to a concrete
single-entry buffer whose only head id is `2`. -/
theorem c7_witness :
    (c7SampleTab.deps = [(("s1"), c7SampleEntries)] ∧
      (∀ e ∈ c7SampleEntries, e.headId ≠ (""))) ∧
    ((writeTokenDeps c7SampleTab ("")).deps = c7SampleTab.deps ∧
      (writeTokenDeps c7SampleTab ("")).rows = c7SampleTab.rows ∧
      (writeTokenDeps c7SampleTab ("")).anchorRight = c7SampleTab.anchorRight) :=
  ⟨⟨rfl, by decide⟩,
    c7_no_root_skips ("s1") ("") c7SampleEntries c7SampleTab rfl (by decide)⟩

/-- Helper: the dependency branch never modifies
`token_have_dependencies` (its assignment at line 539 is commented
out). -/
theorem depBranch_flag (segId : String) (st : PipeState) (tok : DepTok) :
    (depBranch segId st tok).tokenHaveDependencies = st.tokenHaveDependencies := by
  obtain ⟨i, f, d⟩ := tok
  cases d <;> rfl

/-- Helper: the attribute freeze touches only the frozen-attribute
fields, never the flag. -/
theorem freezeNonNull_flag (st : PipeState) (toks : List DepTok) :
    (freezeNonNull st toks).tokenHaveDependencies = st.tokenHaveDependencies := by
  unfold freezeNonNull
  split
  · rfl
  · rfl

/-- Helper: the attribute freeze never touches the fts rows. -/
theorem freezeNonNull_fts (st : PipeState) (toks : List DepTok) :
    (freezeNonNull st toks).ftsRows = st.ftsRows := by
  unfold freezeNonNull
  split
  · rfl
  · rfl

/-- Helper: a token-loop iteration never modifies the flag, whether or
not the dependency attribute is frozen. -/
theorem pipeTokenStep_flag (segId : String) (st : PipeState) (tok : DepTok) :
    (pipeTokenStep segId st tok).tokenHaveDependencies =
      st.tokenHaveDependencies := by
  show (if st.nonNullDep then depBranch segId st tok else st).tokenHaveDependencies =
    st.tokenHaveDependencies
  split
  · exact depBranch_flag segId st tok
  · rfl

/-- Helper: the whole token loop never modifies the flag. -/
theorem foldlTokens_flag (segId : String) (toks : List DepTok) (st : PipeState) :
    (toks.foldl (pipeTokenStep segId) st).tokenHaveDependencies =
      st.tokenHaveDependencies := by
  induction toks generalizing st with
  | nil => rfl
  | cons t ts ih => rw [List.foldl_cons, ih, pipeTokenStep_flag]

/-- Helper: a segment iteration that completes never modifies the
flag. -/
theorem pipeSegStep_flag (st st1 : PipeState) (seg : Seg)
    (h : pipeSegStep st seg = Except.ok st1) :
    st1.tokenHaveDependencies = st.tokenHaveDependencies := by
  have hfold : (seg.toks.foldl (pipeTokenStep seg.id)
      (freezeNonNull st seg.toks)).tokenHaveDependencies =
      st.tokenHaveDependencies := by
    rw [foldlTokens_flag, freezeNonNull_flag]
  simp only [pipeSegStep] at h
  by_cases hb : (seg.toks.foldl (pipeTokenStep seg.id)
      (freezeNonNull st seg.toks)).tokenHaveDependencies = true
  · rw [if_pos hb] at h
    injection h with h2
    rw [← h2]
    exact hfold
  · rw [if_neg hb] at h
    cases hf : ftsVector
        (seg.toks.foldl (pipeTokenStep seg.id) (freezeNonNull st seg.toks)).nonNullForm
        (seg.toks.foldl (pipeTokenStep seg.id) (freezeNonNull st seg.toks)).nonNullDep
        seg.toks with
    | error e =>
      rw [hf] at h
      exact Except.noConfusion h
    | ok v =>
      rw [hf] at h
      injection h with h2
      rw [← h2]
      exact hfold

/-- Helper: the dependency branch never touches the fts rows. -/
theorem depBranch_fts (segId : String) (st : PipeState) (tok : DepTok) :
    (depBranch segId st tok).ftsRows = st.ftsRows := by
  obtain ⟨i, f, d⟩ := tok
  cases d <;> rfl

/-- Helper: a token-loop iteration never touches the fts rows. -/
theorem pipeTokenStep_fts (segId : String) (st : PipeState) (tok : DepTok) :
    (pipeTokenStep segId st tok).ftsRows = st.ftsRows := by
  show (if st.nonNullDep then depBranch segId st tok else st).ftsRows = st.ftsRows
  split
  · exact depBranch_fts segId st tok
  · rfl

/-- Helper: the whole token loop never touches the fts rows. -/
theorem foldlTokens_fts (segId : String) (toks : List DepTok) (st : PipeState) :
    (toks.foldl (pipeTokenStep segId) st).ftsRows = st.ftsRows := by
  induction toks generalizing st with
  | nil => rfl
  | cons t ts ih => rw [List.foldl_cons, ih, pipeTokenStep_fts]

/-- Helper: a completed segment iteration starting from an unset flag
appends exactly one fts row. -/
theorem pipeSegStep_fts_len (st st1 : PipeState) (seg : Seg)
    (hflag : st.tokenHaveDependencies = false)
    (h : pipeSegStep st seg = Except.ok st1) :
    st1.ftsRows.length = st.ftsRows.length + 1 := by
  have hfts : (seg.toks.foldl (pipeTokenStep seg.id)
      (freezeNonNull st seg.toks)).ftsRows = st.ftsRows := by
    rw [foldlTokens_fts, freezeNonNull_fts]
  have hb : ¬ ((seg.toks.foldl (pipeTokenStep seg.id)
      (freezeNonNull st seg.toks)).tokenHaveDependencies = true) := by
    rw [foldlTokens_flag, freezeNonNull_flag, hflag]
    simp
  simp only [pipeSegStep] at h
  rw [if_neg hb] at h
  cases hf : ftsVector
      (seg.toks.foldl (pipeTokenStep seg.id) (freezeNonNull st seg.toks)).nonNullForm
      (seg.toks.foldl (pipeTokenStep seg.id) (freezeNonNull st seg.toks)).nonNullDep
      seg.toks with
  | error e =>
    rw [hf] at h
    exact Except.noConfusion h
  | ok v =>
    rw [hf] at h
    injection h with h2
    rw [← h2]
    show ((seg.toks.foldl (pipeTokenStep seg.id)
        (freezeNonNull st seg.toks)).ftsRows ++ [v]).length =
      st.ftsRows.length + 1
    rw [List.length_append, hfts]
    rfl

/-- Helper: the generator loop never modifies the flag on a completed
run — in particular it is still `false` at end-of-stream. -/
theorem pipeLoop_flag (stream : List (Option Seg)) (st st1 : PipeState)
    (h : pipeLoop st stream = Except.ok st1) :
    st1.tokenHaveDependencies = st.tokenHaveDependencies := by
  induction stream generalizing st with
  | nil =>
    have h2 : Except.ok st = Except.ok st1 := h
    injection h2 with h3
    rw [← h3]
  | cons os rest ih =>
    cases os with
    | none => exact ih st h
    | some seg =>
      cases hs : pipeSegStep st seg with
      | error e =>
        have h2 : (match pipeSegStep st seg with
            | Except.error e => Except.error e
            | Except.ok st2 => pipeLoop st2 rest) = Except.ok st1 := h
        rw [hs] at h2
        have h4 : Except.error e = Except.ok st1 := h2
        exact Except.noConfusion h4
      | ok st2 =>
        have h2 : (match pipeSegStep st seg with
            | Except.error e => Except.error e
            | Except.ok st2 => pipeLoop st2 rest) = Except.ok st1 := h
        rw [hs] at h2
        have h3 : pipeLoop st2 rest = Except.ok st1 := h2
        rw [ih st2 h3]
        exact pipeSegStep_flag st st2 seg hs

/-- Helper: a completed loop emits one fts row per processed
(non-skipped) segment when starting from an unset flag. -/
theorem pipeLoop_fts_length (stream : List (Option Seg)) (st st1 : PipeState)
    (hflag : st.tokenHaveDependencies = false)
    (h : pipeLoop st stream = Except.ok st1) :
    st1.ftsRows.length = st.ftsRows.length + (stream.filterMap id).length := by
  induction stream generalizing st with
  | nil =>
    have h2 : Except.ok st = Except.ok st1 := h
    injection h2 with h3
    rw [← h3]
    simp
  | cons os rest ih =>
    cases os with
    | none =>
      have hfm : ((none : Option Seg) :: rest).filterMap id =
          rest.filterMap id := rfl
      rw [hfm]
      exact ih st hflag h
    | some seg =>
      cases hs : pipeSegStep st seg with
      | error e =>
        have h2 : (match pipeSegStep st seg with
            | Except.error e => Except.error e
            | Except.ok st2 => pipeLoop st2 rest) = Except.ok st1 := h
        rw [hs] at h2
        have h4 : Except.error e = Except.ok st1 := h2
        exact Except.noConfusion h4
      | ok st2 =>
        have h2 : (match pipeSegStep st seg with
            | Except.error e => Except.error e
            | Except.ok st2 => pipeLoop st2 rest) = Except.ok st1 := h
        rw [hs] at h2
        have h3 : pipeLoop st2 rest = Except.ok st1 := h2
        have hflag2 : st2.tokenHaveDependencies = false := by
          rw [pipeSegStep_flag st st2 seg hs, hflag]
        have hlen := pipeSegStep_fts_len st st2 seg hflag hs
        have hrec := ih st2 hflag2 h3
        have hfm : ((some seg : Option Seg) :: rest).filterMap id =
            seg :: rest.filterMap id := rfl
        rw [hfm, List.length_cons, hrec, hlen]
        omega

/-- Helper: the end-of-stream block never touches the fts rows. -/
theorem finalDepFlush_fts (st : PipeState) :
    (finalDepFlush st).ftsRows = st.ftsRows := by
  unfold finalDepFlush
  split
  · rfl
  · rfl

/-- Claim C2, counterexample: a stream whose single segment holds one
complete two-token dependency tree — the dependent's truthy head value
freezes the dependency attribute (line 469 skips only falsy values), so
both entries are buffered — runs to completion; at end-of-stream NO
dependency rows have been written and the buffer still holds the
unclosed tree, although flushing the table would emit its rows (fourth
conjunct).  The guard `if token_have_dependencies` at line 681 is never
true because the flag's only assignment (line 539) is commented out, so
the claim that remaining buffered trees are flushed before closing is
false at this input. -/
theorem c2_counterexample :
    runOk (runPipeline c2Stream) = true ∧
    (runState (runPipeline c2Stream)).rel.rows = [] ∧
    (runState (runPipeline c2Stream)).rel.deps ≠ [] ∧
    (writeTokenDeps (runState (runPipeline c2Stream)).rel ("")).rows ≠ [] := by
  decide

/-- Claim C2, amended: at end-of-stream no dependency flush happens at
all — the end-of-stream block of lines 681-686 is dead code because
`token_have_dependencies` is initialized `False` (line 439) and its only
assignment (line 539) is commented out — so the pipeline's result is
exactly the loop's result (aborts included) and buffered unclosed trees
are silently dropped. -/
theorem c2_amended (stream : List (Option Seg)) :
    runPipeline stream = pipeLoop initPipeState stream := by
  unfold runPipeline
  cases hl : pipeLoop initPipeState stream with
  | error e => rfl
  | ok st0 =>
    have hflag : st0.tokenHaveDependencies = false :=
      pipeLoop_flag stream initPipeState st0 hl
    show Except.ok (finalDepFlush st0) = Except.ok st0
    have hid : finalDepFlush st0 = st0 := by
      unfold finalDepFlush
      rw [hflag]
      simp
    rw [hid]

/-- Claim C3, counterexample: two segments, each one complete two-token
tree (root plus dependent, so the dependency attribute is frozen on the
first segment and every token carries it — the run completes without a
KeyError).  The second segment's root flushes the first segment's tree,
contributing two relation rows, yet BOTH segments emit an `fts_vector`
row: the guard at line 652 reads the never-set flag, so a segment whose
tokens carry Dependency attributes does produce an fts row, and does so
even after the relation has contributed edges — refuting the claim. -/
theorem c3_counterexample :
    runOk (runPipeline c3Stream) = true ∧
    (runState (runPipeline c3Stream)).ftsRows.length = 2 ∧
    (runState (runPipeline c3Stream)).rel.rows.length = 2 ∧
    ¬ ((runState (runPipeline c3Stream)).ftsRows.length = 0) := by
  decide

/-- Claim C3, amended: whenever the run completes, an `fts_vector` row
has been emitted for EVERY processed segment, unconditionally — one row
per non-`None` yield — because the guard `if not
token_have_dependencies` at line 652 reads a flag that is never set
(line 539 is commented out; the comment at line 651 reads `Always run
for now`): mutual exclusion with the dependency encoding does not hold.
The completion hypothesis matters: line 661 (`a = token.attributes[an]`)
raises an uncaught KeyError, aborting the run, when a token lacks a
frozen attribute. -/
theorem c3_amended (stream : List (Option Seg)) (st1 : PipeState)
    (h : runPipeline stream = Except.ok st1) :
    st1.ftsRows.length = (stream.filterMap id).length := by
  unfold runPipeline at h
  cases hl : pipeLoop initPipeState stream with
  | error e =>
    rw [hl] at h
    have h4 : Except.error e = Except.ok st1 := h
    exact Except.noConfusion h4
  | ok st0 =>
    rw [hl] at h
    have h2 : Except.ok (finalDepFlush st0) = Except.ok st1 := h
    injection h2 with h3
    have hlen := pipeLoop_fts_length stream initPipeState st0 rfl hl
    rw [← h3, finalDepFlush_fts, hlen]
    simp [initPipeState]

/-- Claim C3, amended, witness: the theorem applied to the concrete
two-segment stream, whose run completes with two fts rows. -/
theorem c3_amended_witness :
    runPipeline c3Stream = Except.ok (runState (runPipeline c3Stream)) ∧
    (runState (runPipeline c3Stream)).ftsRows.length =
      (c3Stream.filterMap id).length :=
  ⟨rfl, c3_amended c3Stream (runState (runPipeline c3Stream)) rfl⟩

/-- Claim C4 (code bug): process two rows with label sets `{A}` then
`{B}` against one shared vocabulary.  `A` is assigned index 0 and `B`
index 1, yet BOTH rows encode to the bitset 1 — `bin` string `1`, padded
to `01` (padded length 2 equals the vocabulary size, so the length half
of the claim holds) — because line 279 maps index `i` to bit value
`2 ^ (i - 1)` with truncated subtraction.  For the `{B}` row, bit 1 (the
index the side table of lines 361-365 documents for `B`) is NOT set
while bit 0 (documented for `A`) IS set: bit `i` fails to correspond to
the label of index `i` under any reading, since two different label sets
produce identical bitstrings. -/
theorem c4_label_bit_collision :
    (encodeLabelSet [] ("A")).1 = [(("A"), 0)] ∧
    (encodeLabelSet [] ("A")).2 = 1 ∧
    (encodeLabelSet (encodeLabelSet [] ("A")).1 ("B")).1 =
      [(("A"), 0), (("B"), 1)] ∧
    (encodeLabelSet (encodeLabelSet [] ("A")).1 ("B")).2 = 1 ∧
    Nat.testBit (encodeLabelSet (encodeLabelSet [] ("A")).1 ("B")).2 1 = false ∧
    Nat.testBit (encodeLabelSet (encodeLabelSet [] ("A")).1 ("B")).2 0 = true ∧
    paddedBitLength 2 (encodeLabelSet (encodeLabelSet [] ("A")).1 ("B")).2 = 2 := by
  decide

/-- Claim C8, counterexample: freeze the token header on a first segment
holding one Text attribute and no frame ranges — 4 columns
(id, text id, char range, segment id).  A token of a LATER segment that
carries a frame range produces a 5-column row (lines 584-591 append the
frame column based on the token, not on the frozen header): the claimed
identity of column counts is refuted. -/
theorem c8_counterexample :
    headerColCount [⟨AttrKind.text, false⟩] false = 4 ∧
    rowColCount [⟨AttrKind.text, false⟩] [true] true = 5 ∧
    ¬ (rowColCount [⟨AttrKind.text, false⟩] [true] true =
        headerColCount [⟨AttrKind.text, false⟩] false) := by
  decide

/-- Helper: under the matching-profile hypotheses, the attribute slots of
a data row contribute exactly as many columns as the frozen header. -/
theorem rowSum_eq_headerCount (specs : List AttrSpec) (present : List Bool)
    (hlen : present.length = specs.length)
    (hp : ∀ p ∈ specs.zip present,
      (p.1.kind = AttrKind.dependency → p.2 = true) ∧
      (p.1.aligned = true → p.2 = true ∧ p.1.kind = AttrKind.text)) :
    ((specs.zip present).map (fun p => attrRowColCount p.1 p.2)).sum =
      specs.countP (fun s => !(s.kind == AttrKind.dependency) && !s.aligned) := by
  induction specs generalizing present with
  | nil => simp
  | cons s ss ih =>
    cases present with
    | nil => simp at hlen
    | cons b bs =>
      have hlen2 : bs.length = ss.length := by
        simpa using hlen
      have hhead := hp (s, b) (by simp [List.zip_cons_cons])
      have htail : ∀ p ∈ ss.zip bs,
          (p.1.kind = AttrKind.dependency → p.2 = true) ∧
          (p.1.aligned = true → p.2 = true ∧ p.1.kind = AttrKind.text) := by
        intro p hpmem
        exact hp p (by simp [List.zip_cons_cons, hpmem])
      have hstep : attrRowColCount s b =
          (if (!(s.kind == AttrKind.dependency) && !s.aligned) = true then 1 else 0) := by
        obtain ⟨k, al⟩ := s
        obtain ⟨h1, h2⟩ := hhead
        revert h1 h2
        cases k <;> cases al <;> cases b <;> decide
      rw [List.zip_cons_cons, List.map_cons, List.sum_cons, List.countP_cons,
        ih bs hlen2 htail, hstep]
      by_cases hc : (!(s.kind == AttrKind.dependency) && !s.aligned) = true
      · omega
      · omega

/-- Claim C8, amended: the column count of a data row equals the frozen
header count exactly for tokens whose optional-field profile matches the
freeze-time decisions — the token carries a frame range if and only if
the header includes the frame column, every frozen Dependency attribute
is present on the token, and every frozen aligned-entity reference is
present and of Text type.  A token that first introduces a frame range
after the header froze (or that lacks a Dependency or aligned attribute,
gaining a spurious empty column) yields a longer row; rows short of the
frozen width are padded by `Table.write` (modelled from the spec,
section 3: short columns are padded — `lcpcli.utils` is not under
`src/`). -/
theorem c8_amended (specs : List AttrSpec) (present : List Bool)
    (hasFrameFirst : Bool)
    (hlen : present.length = specs.length)
    (hp : ∀ p ∈ specs.zip present,
      (p.1.kind = AttrKind.dependency → p.2 = true) ∧
      (p.1.aligned = true → p.2 = true ∧ p.1.kind = AttrKind.text)) :
    rowColCount specs present hasFrameFirst =
      headerColCount specs hasFrameFirst := by
  unfold rowColCount headerColCount
  rw [rowSum_eq_headerCount specs present hlen hp]

/-- Claim C8, amended, witness: a token table frozen with one Text and
one Dependency attribute, frame column present; a row with both
attributes present and a frame range has the header's 5 columns. -/
theorem c8_amended_witness :
    (([true, true] : List Bool).length =
      ([⟨AttrKind.text, false⟩, ⟨AttrKind.dependency, false⟩] : List AttrSpec).length ∧
      (∀ p ∈ ([⟨AttrKind.text, false⟩, ⟨AttrKind.dependency, false⟩] :
          List AttrSpec).zip ([true, true] : List Bool),
        (p.1.kind = AttrKind.dependency → p.2 = true) ∧
        (p.1.aligned = true → p.2 = true ∧ p.1.kind = AttrKind.text))) ∧
    rowColCount [⟨AttrKind.text, false⟩, ⟨AttrKind.dependency, false⟩]
        [true, true] true =
      headerColCount [⟨AttrKind.text, false⟩, ⟨AttrKind.dependency, false⟩] true :=
  ⟨⟨rfl, by decide⟩,
    c8_amended [⟨AttrKind.text, false⟩, ⟨AttrKind.dependency, false⟩]
      [true, true] true rfl (by decide)⟩

/-- Helper: while every yielded document is `None`, the loop never opens
a document and never writes a document row. -/
theorem docLoop_all_none (stream : List StreamItem) (st : DocState)
    (hcd : st.currentDoc = none)
    (h : ∀ item ∈ stream, item.doc = none) :
    (stream.foldl docStep st).currentDoc = none ∧
    (stream.foldl docStep st).docRows = st.docRows := by
  induction stream generalizing st with
  | nil => exact ⟨hcd, rfl⟩
  | cons it rest ih =>
    have hit : it.doc = none := h it (List.mem_cons_self it rest)
    have hrest : ∀ i ∈ rest, i.doc = none :=
      fun i hi => h i (List.mem_cons_of_mem it hi)
    have hstep : (docStep st it).currentDoc = st.currentDoc ∧
        (docStep st it).docRows = st.docRows := by
      unfold docStep
      rw [hit]
      cases hs : it.segment <;> exact ⟨rfl, rfl⟩
    have hfold := ih (docStep st it) (hstep.1.trans hcd) hrest
    refine ⟨hfold.1, ?_⟩
    rw [show (it :: rest).foldl docStep st = rest.foldl docStep (docStep st it) from rfl,
      hfold.2, hstep.2]

/-- Claim C9: when the input generator never yields a document (no
`newdoc` marker), exactly one Document row is emitted — the fallback of
lines 694-704 — and its character range runs from the initial character
cursor to the final cursor value minus one, spanning the entire
input. -/
theorem c9_no_newdoc (initCur : Int) (stream : List StreamItem)
    (h : ∀ item ∈ stream, item.doc = none) :
    finalDocRows initCur stream =
      [(initCur, (runDocLoop initCur stream).cur - 1)] := by
  obtain ⟨hcd, hrows⟩ :=
    docLoop_all_none stream ⟨initCur, none, []⟩ rfl h
  have hcd2 : (runDocLoop initCur stream).currentDoc = none := hcd
  have hrows2 : (runDocLoop initCur stream).docRows = [] := hrows
  unfold finalDocRows
  show (match (runDocLoop initCur stream).currentDoc with
    | none => (runDocLoop initCur stream).docRows ++
        [(initCur, (runDocLoop initCur stream).cur - 1)]
    | some cd => (runDocLoop initCur stream).docRows ++
        [(cd.2, (runDocLoop initCur stream).cur - 1)]) =
    [(initCur, (runDocLoop initCur stream).cur - 1)]
  rw [hcd2, hrows2]
  rfl

/-- Claim C9, witness: the theorem applied to a concrete document-less
two-segment stream; the single row spans `[1, 9)` with final cursor
10. -/
theorem c9_witness :
    (∀ item ∈ c9SampleStream, item.doc = none) ∧
    finalDocRows 1 c9SampleStream =
      [(1, (runDocLoop 1 c9SampleStream).cur - 1)] :=
  ⟨by decide, c9_no_newdoc 1 c9SampleStream (by decide)⟩

/-- Claim C6, counterexample: in the scenario (tokens 1-3 referencing
`E1`, token 4 without the attribute, token 5 referencing `E2`, every
form of length 5 with trailing space, cursor starting at 1) the code
emits the two rows with ranges `[1,24)` and `[25,30)`.  Token 4 spans
`[19,24)`, so the first row does NOT span only its own contiguous run
(tokens 1-3, ending before position 19): the absent attribute on token 4
closes nothing — the close loop of lines 572-576 skips entity types that
are listed in `non_null_attributes` — so `E1` stays open until `E2`
arrives and its range absorbs token 4's span. -/
theorem c6_counterexample :
    c6Rows.map (fun r => r.range) = [((1 : Int), (24 : Int)), (25, 30)] ∧
    ¬ (∀ r ∈ c6Rows, r.range.2 ≤ (19 : Int) ∨ (25 : Int) ≤ r.range.1) := by
  decide

/-- Claim C6, amended: exactly two aligned-entity rows are emitted for
the type — the two runs are never merged into one row — but the first
row's range extends beyond its contiguous run, through the span of the
attribute-less token 4, up to one position before the cursor at which
`E2` was opened: the rows are `(1, [x], [1,24))` and `(2, [y],
[25,30))`. -/
theorem c6_amended :
    c6Rows.length = 2 ∧
    c6Rows.map (fun r => (r.cursor, r.cols, r.range)) =
      [(1, [("x")], ((1 : Int), (24 : Int))), (2, [("y")], (25, 30))] := by
  decide

/-- Claim C10: a token referencing an aligned entity through a non-empty,
non-placeholder foreign key that does not occur in the first column of
the reference file opens an entity holding only its id — no `cols` and
no `range_low`, since the read loop of lines 308-340 breaks without
setting them — and the next close of that entity type (any differing
key, the `dummy` sentinel included) raises an uncaught KeyError when
line 267 reads `ce["cols"]`, modelled as `Except.error`. -/
theorem c10_missing_fk_keyerror (layerAttrs : List (String × String))
    (colNames : List String) (refFile : List (String × List String))
    (st : ATState) (fk : String)
    (hcur : st.current = CEState.empty)
    (h1 : fk ≠ (""))
    (h2 : fk ≠ ("_"))
    (hmiss : refFile.find? (fun line => line.1 == fk) = none) :
    alignedEntityStep layerAttrs colNames refFile false 0 0 st fk =
      Except.ok { st with current := CEState.openedMissing fk none } ∧
    ∀ (fk2 : String) (c2 f2 : Int), fk2 ≠ fk →
      alignedEntityStep layerAttrs colNames refFile false c2 f2
          { st with current := CEState.openedMissing fk none } fk2 =
        Except.error ("KeyError: cols") := by
  have hce : ceId st.current = ("") := by
    rw [hcur]
    rfl
  have hclose : closeCurrent layerAttrs colNames false 0 0 st = Except.ok st := by
    unfold closeCurrent
    rw [hcur]
  have hopen : openNew layerAttrs colNames refFile false 0 0 st fk =
      { st with current := CEState.openedMissing fk none } := by
    unfold openNew
    rw [if_neg (not_or.mpr ⟨h1, h2⟩), hmiss]
    rfl
  constructor
  · unfold alignedEntityStep
    rw [hce, if_neg h1]
    simp only [hclose, hopen]
  · intro fk2 c2 f2 hne
    have hce2 :
        ceId ({ st with current := CEState.openedMissing fk none } : ATState).current
          = fk := rfl
    have hclose2 : closeCurrent layerAttrs colNames false c2 f2
        { st with current := CEState.openedMissing fk none } =
        Except.error ("KeyError: cols") := rfl
    unfold alignedEntityStep
    rw [hce2, if_neg hne]
    simp only [hclose2]

/-- Claim C10, witness: the theorem applied to a concrete state and the
key `E9`, absent from a reference file holding only `E1`. -/
theorem c10_witness :
    (initATState.current = CEState.empty ∧ ("E9") ≠ ("") ∧ ("E9") ≠ ("_") ∧
      c10RefFile.find? (fun line => line.1 == ("E9")) = none) ∧
    (alignedEntityStep c10LayerAttrs c10ColNames c10RefFile false 0 0
        initATState ("E9") =
      Except.ok { initATState with current := CEState.openedMissing ("E9") none } ∧
    ∀ (fk2 : String) (c2 f2 : Int), fk2 ≠ ("E9") →
      alignedEntityStep c10LayerAttrs c10ColNames c10RefFile false c2 f2
          { initATState with current := CEState.openedMissing ("E9") none } fk2 =
        Except.error ("KeyError: cols")) :=
  ⟨⟨rfl, by decide, by decide, by decide⟩,
    c10_missing_fk_keyerror c10LayerAttrs c10ColNames c10RefFile initATState
      ("E9") rfl (by decide) (by decide) (by decide)⟩

end Lcpcli
